import Mathlib

/-!
Verification of the SSH username-enumeration tool (CVE-2018-15473 exploit,
`ssh-username-enum.py`) against its natural-language specification.

The script drives an external SSH capability (paramiko) per candidate
username: open a socket, run the SSH handshake, send a deliberately
malformed publickey USERAUTH_REQUEST (the trailing "has-signature" boolean
is omitted by monkey-patching `Message.add_boolean` to a no-op), and read
off the server's failure mode.  We embed the script's control flow shallowly:
the external transport's behaviour for one attempt is a value of
`TransportEvent`, and `connect` maps it to the printed lines and the
possibly-propagated exception, exactly following the `try`/`except`
structure of the source.
-/

namespace SshEnum

/-- ANSI escape codes from the `Color` class of the source. -/
def Color.BOLD : String := "\x1b[1m"

def Color.ENDC : String := "\x1b[0m"

def Color.RED : String := "\x1b[38;5;196m"

def Color.BLUE : String := "\x1b[38;5;75m"

def Color.GREEN : String := "\x1b[38;5;149m"

def Color.YELLOW : String := "\x1b[38;5;190m"

/-- The four color names accepted by `Color.string` in the source. -/
inductive ColorName
  | red
  | blue
  | green
  | yellow
deriving DecidableEq, Repr

/-- `getattr(Color, color.upper())` of the source. -/
def colorCode : ColorName → String
  | .red => Color.RED
  | .blue => Color.BLUE
  | .green => Color.GREEN
  | .yellow => Color.YELLOW

/-- `Color.string`: `f'{boldstr}{colorstr}{string}{Color.ENDC}'`. -/
def Color.string (s : String) (color : ColorName) (bold : Bool := false) : String :=
  (if bold then Color.BOLD else "") ++ colorCode color ++ s ++ Color.ENDC

/-- How the external SSH capability resolves `transport.auth_publickey`
for one attempt (which exception, if any, reaches the script's second
`try` block).  `invalidUsername` is raised only by the patched
USERAUTH_FAILURE handler, i.e. only when the server answered the
malformed request with a USERAUTH_FAILURE message. -/
inductive AuthResult
  | success
  | authFailure
  | invalidUsername
  | sshError (msg : String)
deriving DecidableEq, Repr

/-- The outcome of the three externally-visible steps of one attempt
(`create_socket`, `transport.start_client`, `transport.auth_publickey`),
collapsed to the first step that deviates. -/
inductive TransportEvent
  | socketFail (err : String)
  | negotiationFail
  | auth (r : AuthResult)
deriving DecidableEq, Repr

/-- Result of one `connect` call: the lines it printed (in order) and
the exception that escaped it, when one did. -/
structure ConnectResult where
  lines : List String
  uncaught : Option String
deriving DecidableEq, Repr

/-- `print(f'socket error: {e}')` in `create_socket`. -/
def socketErrorLine (e : String) : String := "socket error: " ++ e

/-- `print(Color.string(f'[!] SSH negotiation failed for user {username}.', color='red'))`. -/
def negotiationFailedLine (u : String) : String :=
  Color.string ("[!] SSH negotiation failed for user " ++ u ++ ".") .red

/-- `print(f"[+] {Color.string(username, color='yellow')} found!")`. -/
def foundLine (u : String) : String :=
  "[+] " ++ Color.string u .yellow ++ " found!"

/-- `print(f'[-] {Color.string(username, color="red")} not found')`. -/
def notFoundLine (u : String) : String :=
  "[-] " ++ Color.string u .red ++ " not found"

/-- Shallow embedding of `connect(username, hostname, port, verbose)`:
given what the transport did, which lines are printed and what escapes.

* socket failure: `create_socket` prints the socket error and returns
  `None`; `connect` returns.
* `start_client` raising `SSHException`: the negotiation-failed line.
* `auth_publickey` raising `AuthenticationException`: the found line.
* `auth_publickey` raising `InvalidUsername`: the not-found line when
  `verbose`, else an early `return` with no output.
* `auth_publickey` succeeding, or raising anything else: no print; in the
  latter case the exception escapes `connect` uncaught. -/
def connect (username : String) (verbose : Bool) (ev : TransportEvent) : ConnectResult :=
  match ev with
  | .socketFail e => ⟨[socketErrorLine e], none⟩
  | .negotiationFail => ⟨[negotiationFailedLine username], none⟩
  | .auth .success => ⟨[], none⟩
  | .auth .authFailure => ⟨[foundLine username], none⟩
  | .auth .invalidUsername =>
      if verbose then ⟨[notFoundLine username], none⟩ else ⟨[], none⟩
  | .auth (.sshError msg) => ⟨[], some msg⟩

/-- The spec's four-way outcome classification. -/
inductive AttemptOutcome
  | Valid
  | Invalid
  | NegotiationFailed
  | ConnectionError
deriving DecidableEq, Repr

/-- Which `AttemptOutcome` an attempt manifests as, read off from the
branch of `connect` it takes: the socket-error path is the script's
ConnectionError diagnostic, the `SSHException` path its NegotiationFailed
diagnostic, `AuthenticationException` its Valid verdict and
`InvalidUsername` its Invalid verdict.  A successful authentication or
any other exception is classified by no branch (`none`). -/
def classifyEvent : TransportEvent → Option AttemptOutcome
  | .socketFail _ => some .ConnectionError
  | .negotiationFail => some .NegotiationFailed
  | .auth .success => none
  | .auth .authFailure => some .Valid
  | .auth .invalidUsername => some .Invalid
  | .auth (.sshError _) => none

/-- Python `str.strip()`: drop whitespace from both ends. -/
def pyStrip (s : String) : String :=
  .mk (((s.data.dropWhile Char.isWhitespace).reverse.dropWhile Char.isWhitespace).reverse)

/-- The argument tuples built in `main`'s wordlist branch:
`[(user.strip(), host, port, verbose) for user in usernames]`. -/
def wordlistTasks (lines : List String) (host : String) (port : Nat) (verbose : Bool) :
    List (String × String × Nat × Bool) :=
  lines.map (fun user => (pyStrip user, host, port, verbose))

/-- The candidate usernames submitted for attempts in wordlist mode:
first components of `wordlistTasks`. -/
def wordlistCandidates (lines : List String) : List String :=
  lines.map pyStrip

/-- What §6 of the spec says the candidates should be: each NON-EMPTY
trimmed line is one candidate, in file order.  Stated for comparison
with `wordlistCandidates`, which is what the code computes. -/
def specWordlistCandidates (lines : List String) : List String :=
  (lines.map pyStrip).filter (fun s => s ≠ "")

/-- `main`'s single-username branch: `kwargs['username'] = username.strip();
connect(**kwargs)`, i.e. one `connect` call on the stripped username.
The transport's behaviour is a function of the candidate actually sent. -/
def singleModeResult (u : String) (verbose : Bool)
    (oracle : String → TransportEvent) : ConnectResult :=
  connect (pyStrip u) verbose (oracle (pyStrip u))

/-- `main`'s wordlist branch, one `connect` result per line (in file
order; completion order under the pool does not change any per-candidate
result since workers share no mutable state the script reads). -/
def wordlistModeResults (lines : List String) (verbose : Bool)
    (oracle : String → TransportEvent) : List ConnectResult :=
  lines.map (fun l => connect (pyStrip l) verbose (oracle (pyStrip l)))

/-! ### The malformed USERAUTH_REQUEST encoding

The script makes paramiko emit the malformed packet by replacing
`paramiko.message.Message.add_boolean` with a no-op while the
SERVICE_ACCEPT handler builds and sends the USERAUTH_REQUEST.  The byte
layout of that message lives in the external SSH library, not in this
repository; the field list below is therefore modelled from the spec
(§4.2): username, service name "ssh-connection", method name "publickey",
the public-key blob, and — in a conformant encoding — the trailing
"has-signature" boolean.  The `add_boolean` behaviour itself is from the
source: the patched version writes nothing at all. -/

/-- Big-endian 32-bit length prefix, as four bytes. -/
def u32be (n : Nat) : List Nat :=
  [n / 2 ^ 24 % 256, n / 2 ^ 16 % 256, n / 2 ^ 8 % 256, n % 256]

/-- SSH `string` field: 4-byte length then the bytes. -/
def addString (field : List Nat) : List Nat :=
  u32be field.length ++ field

/-- `Message.add_boolean`: one byte `0x00`/`0x01` normally; under the
patch (`patched_add_boolean`) it emits nothing — the field is entirely
absent, not encoded as false. -/
def add_boolean (patched : Bool) (b : Bool) : List Nat :=
  if patched then [] else [if b then 1 else 0]

/-- ASCII bytes of a name string. -/
def asciiBytes (s : String) : List Nat := s.data.map Char.toNat

/-- Modelled from the spec: the publickey USERAUTH_REQUEST for a given
username and ephemeral public-key blob (message byte 50, then the §4.2
field list).  `patched = true` is the encoding produced while
`add_boolean` is monkey-patched; `patched = false` is the conformant
encoding of the same request. -/
def userauthRequestBytes (patched : Bool) (username keyblob : List Nat) : List Nat :=
  [50] ++ addString username ++ addString (asciiBytes "ssh-connection") ++
    addString (asciiBytes "publickey") ++ add_boolean patched true ++ addString keyblob

/-! ### The monkey-patch scoping

`patched_msg_service_accept` swaps `Message.add_boolean` for the no-op,
calls the saved original SERVICE_ACCEPT handler, then swaps the original
`add_boolean` back and returns its value.  There is no `try`/`finally`:
the restore line runs only when the inner handler returns normally. -/

/-- Run of the wrapped SERVICE_ACCEPT handler, as state passing over the
current `add_boolean` binding (`true` = the no-op patch installed).  The
inner handler (external library code) runs with the patch installed and
either returns normally or raises (`some` exception message), possibly
having observed/left its own state. -/
def patched_msg_service_accept (inner : Bool → Bool × Option String)
    (addBooleanPatched : Bool) : Bool × Option String :=
  let old := addBooleanPatched
  let r := inner true
  match r.2 with
  | none => (old, none)
  | some e => (r.1, some e)

/-! ### The run-level trace of `main` -/

/-- Externally visible events of one run, in order. -/
inductive RunEvent
  | netConnect
  | printLine (s : String)
  | printAdvisory
  | attemptStart (u : String)
  | fatalError (e : String)
deriving DecidableEq, Repr

/-- Trace of one `connect` call: the attempt starts, a connection to the
target is opened unless the socket step already failed, and the lines are
printed. -/
def attemptTrace (verbose : Bool) (u : String) (ev : TransportEvent) : List RunEvent :=
  [.attemptStart u] ++
    (match ev with
     | .socketFail _ => []
     | _ => [.netConnect]) ++
    (connect u verbose ev).lines.map .printLine

/-- Trace of `pool.starmap(connect, ...)`: every queued attempt runs and
is traced (the pool finishes all jobs before any exception surfaces);
when some attempt left an uncaught exception the run then dies with one
of them.  Scheduling decides which is re-raised; the trace records the
first queued one. -/
def enumTrace (verbose : Bool) (tasks : List (String × TransportEvent)) : List RunEvent :=
  (tasks.map (fun t => attemptTrace verbose t.1 t.2)).flatten ++
    (match tasks.filterMap (fun t => (connect t.1 verbose t.2).uncaught) with
     | [] => []
     | e :: _ => [.fatalError e])

/-- Trace of `main` in wordlist mode, following the source's order:
`create_socket(hostname, port)` (a banner-probe connection to the
target — or the socket-error print and an early return), the banner
read and OpenSSH-version advisory print, `apply_monkey_patch()`, only
then `Path(wordlist).open()` — fatal when the path is unreadable — and
finally the starmap over the stripped lines. -/
def mainTraceWordlist (bannerConnects : Bool) (wordlistReadable : Bool)
    (lines : List String) (verbose : Bool)
    (oracle : String → TransportEvent) : List RunEvent :=
  if bannerConnects then
    [.netConnect, .printAdvisory] ++
      (if wordlistReadable then
        enumTrace verbose ((wordlistCandidates lines).map (fun u => (u, oracle u)))
      else
        [.fatalError "unreadable wordlist"])
  else
    [.printLine (socketErrorLine "connection refused")]

/-- Expected number of printed lines per attempt, by outcome: the
socket-error, negotiation-failed and found paths each print one line,
the invalid-username path prints one line exactly when verbose, and a
successful authentication or an uncaught exception prints none. -/
def expectedLineCount (verbose : Bool) : TransportEvent → Nat
  | .socketFail _ => 1
  | .negotiationFail => 1
  | .auth .success => 0
  | .auth .authFailure => 1
  | .auth .invalidUsername => if verbose then 1 else 0
  | .auth (.sshError _) => 0

/-- Stripping an all-whitespace line yields the empty string. -/
theorem pyStrip_whitespace_eq_empty (l : String)
    (h : l.data.all Char.isWhitespace = true) : pyStrip l = "" := by
  unfold pyStrip
  have h1 : l.data.dropWhile Char.isWhitespace = [] := by
    rw [List.dropWhile_eq_nil_iff]
    intro x hx
    exact List.all_eq_true.mp h x hx
  rw [h1]
  rfl

/-! ## Claims -/

/-- C1: once an attempt reaches the authentication exchange, an ordinary
authentication failure (key evaluated and rejected for an existing
account) classifies the candidate Valid and prints a found line
containing the username, while the patched userauth-failure handler's
`InvalidUsername` classifies it Invalid and prints a not-found line only
when verbose is set. -/
theorem C1_auth_exchange_classification (u : String) (v : Bool) :
    classifyEvent (.auth .authFailure) = some .Valid ∧
    (connect u v (.auth .authFailure)).lines = [foundLine u] ∧
    (∃ a b, (foundLine u).data = a ++ u.data ++ b) ∧
    classifyEvent (.auth .invalidUsername) = some .Invalid ∧
    (connect u v (.auth .invalidUsername)).lines =
      (if v then [notFoundLine u] else []) := by
  refine ⟨rfl, rfl,
    ⟨("[+] " ++ colorCode .yellow).data, (Color.ENDC ++ " found!").data, ?_⟩, rfl, ?_⟩
  · show ("[+] " ++ Color.string u .yellow ++ " found!").data = _
    simp [Color.string]
  · cases v <;> rfl

/-- C2 counterexample: an Invalid outcome without verbose prints no line
at all, not exactly one. -/
theorem C2_counterexample :
    (connect "root" false (.auth .invalidUsername)).lines.length = 0 ∧
    (connect "root" false (.auth .invalidUsername)).lines.length ≠ 1 := by
  constructor
  · rfl
  · decide

/-- C2 (amended): every attempt prints at most one line; the
socket-error, negotiation-failed and Valid paths print exactly one, the
Invalid path prints one exactly when verbose is set, and a successful
authentication or an exception that `connect` does not catch prints
none. -/
theorem C2_line_count (u : String) (v : Bool) (ev : TransportEvent) :
    (connect u v ev).lines.length = expectedLineCount v ev ∧
    (connect u v ev).lines.length ≤ 1 := by
  cases ev with
  | socketFail e => exact ⟨rfl, le_refl 1⟩
  | negotiationFail => exact ⟨rfl, le_refl 1⟩
  | auth r =>
    cases r with
    | success => exact ⟨rfl, Nat.zero_le 1⟩
    | authFailure => exact ⟨rfl, le_refl 1⟩
    | invalidUsername => cases v <;> exact ⟨rfl, by simp [connect]⟩
    | sshError msg => exact ⟨rfl, Nat.zero_le 1⟩

/-- C3 counterexample: a reset after the crafted request is sent (an
exception from the exchange that is neither an ordinary authentication
failure nor `InvalidUsername`) is not classified ConnectionError — no
branch of `connect` handles it and the exception escapes. -/
theorem C3_counterexample :
    classifyEvent (.auth (.sshError "Connection reset by peer")) ≠
      some AttemptOutcome.ConnectionError ∧
    (connect "root" false (.auth (.sshError "Connection reset by peer"))).uncaught =
      some "Connection reset by peer" := by
  constructor
  · decide
  · rfl

/-- C3 (amended): a connection reset after the crafted request is sent
is never classified Invalid (no not-found line is ever printed for it),
but it does not produce a ConnectionError outcome either: `connect`
classifies it as nothing, prints nothing, and lets the exception
propagate. -/
theorem C3_reset_never_invalid (u msg : String) (v : Bool) :
    classifyEvent (.auth (.sshError msg)) ≠ some AttemptOutcome.Invalid ∧
    classifyEvent (.auth (.sshError msg)) = none ∧
    (connect u v (.auth (.sshError msg))).lines = [] ∧
    (connect u v (.auth (.sshError msg))).uncaught = some msg := by
  exact ⟨by simp [classifyEvent], rfl, rfl, rfl⟩

/-- C5: for every username and key blob, the malformed USERAUTH_REQUEST
produced with `add_boolean` patched out is strictly shorter than the
conformant encoding of the same request by exactly the size of one
boolean field — the trailing has-signature byte is entirely absent, not
encoded as false. -/
theorem C5_malformed_one_byte_shorter (username keyblob : List Nat) :
    (userauthRequestBytes false username keyblob).length =
      (userauthRequestBytes true username keyblob).length + 1 ∧
    (add_boolean false true).length = 1 ∧
    add_boolean true true = [] := by
  refine ⟨?_, rfl, rfl⟩
  simp [userauthRequestBytes, addString, add_boolean, u32be]
  omega

/-- C6 counterexample: a wordlist with a blank line submits the empty
string as a candidate; the set of candidates is not the non-empty
trimmed lines. -/
theorem C6_counterexample :
    wordlistCandidates ["root", "", "admin"] ≠
      specWordlistCandidates ["root", "", "admin"] ∧
    "" ∈ wordlistCandidates ["root", "", "admin"] := by
  constructor
  · decide
  · decide

/-- C6 (amended): in wordlist mode every line of the file, after
trimming, becomes exactly one submitted candidate, in file order —
including empty and whitespace-only lines, which become empty-string
candidates rather than being skipped. -/
theorem C6_every_line_is_candidate (lines : List String) (host : String)
    (port : Nat) (v : Bool) :
    (wordlistTasks lines host port v).map (fun t => t.1) = wordlistCandidates lines ∧
    (wordlistCandidates lines).length = lines.length ∧
    (∀ l ∈ lines, pyStrip l ∈ wordlistCandidates lines) ∧
    (∀ l ∈ lines, l.data.all Char.isWhitespace = true →
      "" ∈ wordlistCandidates lines) := by
  refine ⟨?_, ?_, ?_, ?_⟩
  · simp [wordlistTasks, wordlistCandidates]
  · simp [wordlistCandidates]
  · intro l hl
    exact List.mem_map_of_mem pyStrip hl
  · intro l hl hws
    have := List.mem_map_of_mem pyStrip hl
    rwa [pyStrip_whitespace_eq_empty l hws] at this

/-- C6 witness: the amended theorem at a concrete wordlist with a
whitespace-only line, whose candidate is the empty string. -/
theorem C6_every_line_is_candidate_witness :
    "" ∈ wordlistCandidates ["root", " ", "admin"] :=
  (C6_every_line_is_candidate ["root", " ", "admin"] "host" 22 false).2.2.2
    " " (by decide) (by decide)

/-- C7: for every username, verbosity and transport behaviour,
single-username mode and wordlist mode over exactly that one line call
`connect` with the same stripped candidate, host, port and verbosity,
so they produce the same result and hence the same AttemptOutcome
classification. -/
theorem C7_single_eq_wordlist (u : String) (v : Bool)
    (oracle : String → TransportEvent) :
    wordlistModeResults [u] v oracle = [singleModeResult u v oracle] :=
  rfl

/-- C9 counterexample: in a run that fails on an unreadable wordlist,
a connection to the target has already been opened (the banner probe
precedes the wordlist open in `main`). -/
theorem C9_counterexample :
    RunEvent.netConnect ∈
      mainTraceWordlist true false ["root"] false (fun _ => .auth .authFailure) ∧
    RunEvent.fatalError "unreadable wordlist" ∈
      mainTraceWordlist true false ["root"] false (fun _ => .auth .authFailure) := by
  constructor
  · simp [mainTraceWordlist]
  · simp [mainTraceWordlist]

/-- C9 (amended): an unreadable wordlist path is fatal to the whole run
and no candidate attempt is ever started; but it is surfaced only after
network activity has begun — the banner-probe connection to the target
is the first event of the run, before the wordlist is opened. -/
theorem C9_unreadable_wordlist_after_banner (lines : List String) (v : Bool)
    (oracle : String → TransportEvent) :
    mainTraceWordlist true false lines v oracle =
      [.netConnect, .printAdvisory, .fatalError "unreadable wordlist"] ∧
    (∀ u, RunEvent.attemptStart u ∉ mainTraceWordlist true false lines v oracle) ∧
    (mainTraceWordlist true false lines v oracle).head? = some .netConnect := by
  refine ⟨rfl, ?_, rfl⟩
  intro u
  simp [mainTraceWordlist]

/-- C10 counterexample: if the wrapped SERVICE_ACCEPT handler raises,
the patched wrapper propagates the exception without restoring
`add_boolean`; after the handler's window the no-op patch is still
installed, so later messages do not encode booleans conformantly. -/
theorem C10_counterexample :
    patched_msg_service_accept (fun s => (s, some "EOFError")) false =
      (true, some "EOFError") ∧
    (patched_msg_service_accept (fun s => (s, some "EOFError")) false).1 ≠ false := by
  constructor
  · rfl
  · decide

/-- C10 (amended): the boolean-omitting mode is scoped to one
SERVICE_ACCEPT handler call only on the normal-return path: when the
wrapped handler returns, the previous `add_boolean` binding is restored
whatever state the handler left; but when it raises, the wrapper
propagates the exception with the patch still installed. -/
theorem C10_patch_scoped_to_normal_return (inner : Bool → Bool × Option String)
    (s : Bool) :
    ((inner true).2 = none → patched_msg_service_accept inner s = (s, none)) ∧
    (∀ e, (inner true).2 = some e →
      patched_msg_service_accept inner s = ((inner true).1, some e)) := by
  constructor
  · intro h
    rcases hr : inner true with ⟨s1, exc⟩
    rw [hr] at h
    simp only at h
    subst h
    simp [patched_msg_service_accept, hr]
  · intro e h
    rcases hr : inner true with ⟨s1, exc⟩
    rw [hr] at h
    simp only at h
    subst h
    simp [patched_msg_service_accept, hr]

/-- C10 witness: the amended theorem at a concrete normally-returning
handler (conformant encoding restored) and a concrete raising handler
(patch left installed). -/
theorem C10_patch_scoped_witness :
    patched_msg_service_accept (fun _ => (true, none)) false = (false, none) ∧
    patched_msg_service_accept (fun s => (s, some "EOFError")) false =
      (true, some "EOFError") :=
  ⟨(C10_patch_scoped_to_normal_return (fun _ => (true, none)) false).1 rfl,
   (C10_patch_scoped_to_normal_return (fun s => (s, some "EOFError")) false).2
      "EOFError" rfl⟩

end SshEnum
